import Mathlib

/-!
Verification of the rosbag2 sequential reindexer
(`src/rosbag2_cpp/src/rosbag2_cpp/reindexers/sequential_reindexer.cpp` and the
`Reindexer` facade header).  The implemented parts of the source —
`details::resolve_relative_paths`, `SequentialReindexer::open`,
`SequentialReindexer::init_metadata` — are embedded directly, with the
filesystem, the `MetadataIo` collaborator, the storage factory and the
converter factory abstracted as an environment of oracles.  The record scan
and metadata-building pass of `reindex()` is an unimplemented stub in the
source (its body is a commented-out `init_metadata()` call followed by an
unconditional `throw`), so those parts are modelled from the specification;
each such definition is marked `Modelled from the spec:` in its doc comment.
-/

namespace Rosbag2

/-! ## Path model (posix semantics of `rcpputils::fs::path`, computable on
character lists) -/

/-- `rcpputils::fs::path::is_absolute()` on posix: the path starts with the
separator `/`. -/
def is_absolute (p : String) : Bool :=
  match p.data with
  | [] => false
  | c :: _ => c == '/'

/-- Split a character list at every `/` (the component list of a path). -/
def split_slash : List Char → List (List Char)
  | [] => [[]]
  | c :: rest =>
    if c == '/' then [] :: split_slash rest
    else
      match split_slash rest with
      | [] => [[c]]
      | h :: t => (c :: h) :: t

/-- Rejoin path components with `/`. -/
def join_slash : List (List Char) → List Char
  | [] => []
  | [x] => x
  | x :: xs => x ++ '/' :: join_slash xs

/-- `rcpputils::fs::path::parent_path()`: drop the last path component. -/
def parent_path (p : String) : String :=
  String.mk (join_slash ((split_slash p.data).dropLast))

/-- `rcpputils::fs::path::operator/`: join with the separator. -/
def path_join (base p : String) : String := base ++ "/" ++ p

/-- `strip_parent_path`, declared by the reindexer: keep only the last
component (the filename) of the path. -/
def strip_parent_path (p : String) : String :=
  String.mk ((split_slash p.data).getLastD p.data)

/-! ## Data model (`rosbag2_storage` types used by the reindexer) -/

structure TopicMetadata where
  name : String := ""
  type : String := ""
  serialization_format : String := ""
  offered_qos_profiles : String := ""
deriving DecidableEq

structure TopicInformation where
  topic_metadata : TopicMetadata := {}
  message_count : Nat := 0
deriving DecidableEq

structure BagMetadata where
  version : Int := 4
  storage_identifier : String := ""
  relative_file_paths : List String := []
  topics_with_message_count : List TopicInformation := []
  starting_time : Int := 0
  duration : Int := 0
deriving DecidableEq

structure StorageOptions where
  uri : String
  storage_id : String
deriving DecidableEq

structure ConverterOptions where
  output_serialization_format : String
deriving DecidableEq

/-- The handle returned by `StorageFactoryInterface::open_read_only`; its
fields are the results of the observer calls the reindexer makes on it. -/
structure StorageHandle where
  metadata : BagMetadata
  storage_identifier : String
  relative_file_path : String
deriving DecidableEq

/-- The external collaborators of the reindexer: the filesystem queries made
through `rcpputils`, the `MetadataIo` collaborator, the storage factory, and
the converter factory (`converter_available` is only consulted by the advisory
format check). -/
structure Env where
  fs_exists : String → Bool
  is_directory : String → Bool
  metadata_file_exists : String → Bool
  read_metadata : String → BagMetadata
  open_read_only : String → String → Option StorageHandle
  converter_available : String → String → Bool

/-- The error taxonomy of the spec (§7).  `RuntimeError` is a raw
`std::runtime_error` whose message does not fall into the taxonomy. -/
inductive ReindexError where
  | NotFoundError (msg : String)
  | OpenError (msg : String)
  | InconsistentFormatError (msg : String)
  | UnsupportedConversionError (msg : String)
  | NotOpenError (msg : String)
  | RuntimeError (msg : String)
deriving DecidableEq

instance {e a : Type} [DecidableEq e] [DecidableEq a] : DecidableEq (Except e a) := fun
  | .ok x, .ok y =>
    if h : x = y then isTrue (by rw [h]) else isFalse (by intro hc; cases hc; exact h rfl)
  | .error x, .error y =>
    if h : x = y then isTrue (by rw [h]) else isFalse (by intro hc; cases hc; exact h rfl)
  | .ok _, .error _ => isFalse (by intro hc; cases hc)
  | .error _, .ok _ => isFalse (by intro hc; cases hc)

/-! ## `details::resolve_relative_paths` (source lines 34–57) -/

/-- The `base_path` variable of `resolve_relative_paths`: the parent of
`base_folder` for on-disk layouts older than version 4, `base_folder` itself
from version 4 on. -/
def computed_base (base_folder : String) (version : Int) : String :=
  if version < 4 then parent_path base_folder else base_folder

/-- `details::resolve_relative_paths(base_folder, relative_files, version)`:
the computed base must exist and be a directory; absolute entries pass
through, relative entries are joined against the computed base. -/
def resolve_relative_paths (env : Env) (base_folder : String)
    (relative_files : List String) (version : Int) : Except ReindexError (List String) :=
  if !(env.fs_exists (computed_base base_folder version)) then
    .error (.NotFoundError ("base folder does not exist: " ++ base_folder))
  else if !(env.is_directory (computed_base base_folder version)) then
    .error (.NotFoundError ("base folder has to be a directory: " ++ base_folder))
  else
    .ok (relative_files.map (fun file =>
      if is_absolute file then file
      else path_join (computed_base base_folder version) file))

/-- Successful resolution returns exactly the map over the inputs. -/
theorem resolve_ok_eq (env : Env) (base_folder : String)
    (relative_files : List String) (version : Int) (out : List String)
    (h : resolve_relative_paths env base_folder relative_files version = .ok out) :
    out = relative_files.map (fun file =>
      if is_absolute file then file
      else path_join (computed_base base_folder version) file) := by
  unfold resolve_relative_paths at h
  split at h
  · simp at h
  · split at h
    · simp at h
    · injection h with h
      exact h.symm

/-! ## Claim C4 -/

/-- C4: when `resolve_relative_paths` succeeds, the base used for joining is
the parent of `base_folder` for `layout_version < 4`, and `base_folder` itself
for `layout_version ≥ 4`; the output has the length of the input, and position
by position an absolute input passes through unchanged while every other
input is joined against that computed base (so order is preserved). -/
theorem resolve_paths_pointwise (env : Env) (base_folder : String)
    (relative_files : List String) (version : Int) (out : List String)
    (h : resolve_relative_paths env base_folder relative_files version = .ok out) :
    (version < 4 → computed_base base_folder version = parent_path base_folder) ∧
    (4 ≤ version → computed_base base_folder version = base_folder) ∧
    out.length = relative_files.length ∧
    ∀ i : Nat, out[i]? = (relative_files[i]?).map (fun file =>
      if is_absolute file then file
      else path_join (computed_base base_folder version) file) := by
  have hout := resolve_ok_eq env base_folder relative_files version out h
  subst hout
  refine ⟨?_, ?_, by simp, ?_⟩
  · intro hv
    simp [computed_base, hv]
  · intro hv
    have : ¬ version < 4 := by omega
    simp [computed_base, this]
  · intro i
    simp

/-- Witness for C4 at a concrete input: base `/bags/mybag`, one absolute and
one relative file, layout version 4, instantiated at index 1. -/
theorem resolve_paths_pointwise_witness :
    (["/elsewhere/a.db3", "/bags/mybag/b.db3"] : List String).length =
      (["/elsewhere/a.db3", "b.db3"] : List String).length ∧
    (["/elsewhere/a.db3", "/bags/mybag/b.db3"] : List String)[1]? =
      ((["/elsewhere/a.db3", "b.db3"] : List String)[1]?).map (fun file =>
        if is_absolute file then file
        else path_join (computed_base "/bags/mybag" 4) file) :=
  ⟨(resolve_paths_pointwise
      { fs_exists := fun p => p == "/bags/mybag",
        is_directory := fun p => p == "/bags/mybag",
        metadata_file_exists := fun _ => false,
        read_metadata := fun _ => {},
        open_read_only := fun _ _ => none,
        converter_available := fun _ _ => false }
      "/bags/mybag" ["/elsewhere/a.db3", "b.db3"] 4
      ["/elsewhere/a.db3", "/bags/mybag/b.db3"] (by decide)).2.2.1,
   (resolve_paths_pointwise
      { fs_exists := fun p => p == "/bags/mybag",
        is_directory := fun p => p == "/bags/mybag",
        metadata_file_exists := fun _ => false,
        read_metadata := fun _ => {},
        open_read_only := fun _ _ => none,
        converter_available := fun _ _ => false }
      "/bags/mybag" ["/elsewhere/a.db3", "b.db3"] 4
      ["/elsewhere/a.db3", "/bags/mybag/b.db3"] (by decide)).2.2.2 1⟩

/-! ## Claim C5 -/

/-- A filesystem in which `/parent` exists and is a directory but
`/parent/bag` does not exist. -/
def env_legacy : Env :=
  { fs_exists := fun p => p == "/parent",
    is_directory := fun p => p == "/parent",
    metadata_file_exists := fun _ => false,
    read_metadata := fun _ => {},
    open_read_only := fun _ _ => none,
    converter_available := fun _ _ => false }

/-- C5 counterexample: for `layout_version < 4` the existence check is made on
the *parent* of `base_folder`, not on `base_folder` itself.  With version 3
and a `base_folder` `/parent/bag` that does not exist (while `/parent` does),
resolution succeeds instead of failing with `NotFoundError`, refuting the
claim that the resolver fails whenever `base_folder` does not exist. -/
theorem resolve_base_check_counterexample :
    resolve_relative_paths env_legacy "/parent/bag" ["data.db3"] 3 =
      .ok ["/parent/data.db3"] ∧
    env_legacy.fs_exists "/parent/bag" = false ∧
    env_legacy.is_directory "/parent/bag" = false := by decide

/-- C5 amended: for every layout version, the resolver fails with
`NotFoundError` exactly when the *computed base* — the parent of `base_folder`
for `layout_version < 4`, `base_folder` itself for `layout_version ≥ 4` —
does not exist or is not a directory, and succeeds otherwise. -/
theorem resolve_notfound_iff_computed_base (env : Env) (base_folder : String)
    (relative_files : List String) (version : Int) :
    ((env.fs_exists (computed_base base_folder version) = true ∧
      env.is_directory (computed_base base_folder version) = true) →
      resolve_relative_paths env base_folder relative_files version =
        .ok (relative_files.map (fun file =>
          if is_absolute file then file
          else path_join (computed_base base_folder version) file))) ∧
    (¬(env.fs_exists (computed_base base_folder version) = true ∧
       env.is_directory (computed_base base_folder version) = true) →
      ∃ msg, resolve_relative_paths env base_folder relative_files version =
        .error (.NotFoundError msg)) := by
  constructor
  · rintro ⟨h1, h2⟩
    simp [resolve_relative_paths, h1, h2]
  · intro h
    by_cases h1 : env.fs_exists (computed_base base_folder version) = true
    · have h2 : env.is_directory (computed_base base_folder version) = false := by
        cases hx : env.is_directory (computed_base base_folder version)
        · rfl
        · exact absurd ⟨h1, hx⟩ h
      exact ⟨"base folder has to be a directory: " ++ base_folder,
        by simp [resolve_relative_paths, h1, h2]⟩
    · have h1f : env.fs_exists (computed_base base_folder version) = false := by
        cases hx : env.fs_exists (computed_base base_folder version)
        · rfl
        · exact absurd hx h1
      exact ⟨"base folder does not exist: " ++ base_folder,
        by simp [resolve_relative_paths, h1f]⟩

/-- Witness for the amended C5, exercising both directions: version-3 success
through the parent base, and a version-3 failure when the parent is gone. -/
theorem resolve_notfound_iff_computed_base_witness :
    resolve_relative_paths env_legacy "/parent/bag" ["data.db3"] 3 =
      .ok (["data.db3"].map (fun file =>
        if is_absolute file then file
        else path_join (computed_base "/parent/bag" 3) file)) ∧
    ∃ msg, resolve_relative_paths env_legacy "/gone/bag" ["data.db3"] 3 =
      .error (.NotFoundError msg) :=
  ⟨(resolve_notfound_iff_computed_base env_legacy "/parent/bag" ["data.db3"] 3).1
      (by decide),
   (resolve_notfound_iff_computed_base env_legacy "/gone/bag" ["data.db3"] 3).2
      (by decide)⟩

/-! ## The consistency checks invoked by `open` -/

/-- Modelled from the spec: `check_topics_serialization_formats` is only
declared in the shown source (its body lives outside `src/`); §4.3 requires
every topic to share the first topic's serialization format, failing with
`InconsistentFormatError` naming the offending topic. -/
def check_topics_serialization_formats (topics : List TopicInformation) :
    Except ReindexError Unit :=
  match topics with
  | [] => .ok ()
  | t0 :: rest =>
    match rest.find? (fun t =>
        !(t.topic_metadata.serialization_format ==
          t0.topic_metadata.serialization_format)) with
    | some t => .error (.InconsistentFormatError t.topic_metadata.name)
    | none => .ok ()

/-- Modelled from the spec: `check_converter_serialization_format` is only
declared in the shown source (its body lives outside `src/`); §4.3 requires a
converter plugin when a non-empty requested output format differs from the
store's format, failing with `UnsupportedConversionError` otherwise. -/
def check_converter_serialization_format (env : Env)
    (output_format storage_format : String) : Except ReindexError Unit :=
  if output_format == "" || output_format == storage_format then .ok ()
  else if env.converter_available storage_format output_format then .ok ()
  else .error (.UnsupportedConversionError output_format)

/-! ## `SequentialReindexer::open` (source lines 75–123) -/

/-- The observable state the reindexer holds after `open` returns: the loaded
metadata, the segment file list (`file_paths_`), the storage handle
(`storage_`), the copied topic metadata (`topics_metadata_`), the warnings
logged, and whether the two serialization-format checks were executed. -/
structure ReindexerState where
  metadata : BagMetadata
  file_paths : List String
  storage : Option StorageHandle
  topics_metadata : List TopicMetadata
  warnings : List String
  checks_ran : Bool
deriving DecidableEq

/-- The common tail of `open` (source lines 111–123): early-return with a
warning when the metadata lists no topics, otherwise copy the topic metadata
(`fill_topics_metadata`) and run the two serialization-format checks. -/
def finish_open (env : Env) (converter_options : ConverterOptions)
    (metadata : BagMetadata) (file_paths : List String) (storage : StorageHandle) :
    Except ReindexError ReindexerState :=
  if metadata.topics_with_message_count.isEmpty then
    .ok { metadata := metadata, file_paths := file_paths, storage := some storage,
          topics_metadata := [], warnings := ["No topics were listed in metadata."],
          checks_ran := false }
  else
    match check_topics_serialization_formats metadata.topics_with_message_count with
    | .error e => .error e
    | .ok _ =>
      match check_converter_serialization_format env
          converter_options.output_serialization_format
          ((metadata.topics_with_message_count.headD {}).topic_metadata.serialization_format) with
      | .error e => .error e
      | .ok _ =>
        .ok { metadata := metadata, file_paths := file_paths, storage := some storage,
              topics_metadata := metadata.topics_with_message_count.map
                (fun ti => ti.topic_metadata),
              warnings := [], checks_ran := true }

/-- `SequentialReindexer::open`: load the persisted index when
`metadata_file_exists(uri)`, resolving its relative paths and opening the
backend on the first resolved file; otherwise fall back to opening the backend
on the raw URI and taking its self-reported metadata verbatim.  An empty
`relative_file_paths` is a logged warning and an early successful return in
both branches. -/
def open_reindexer (env : Env) (storage_options : StorageOptions)
    (converter_options : ConverterOptions) : Except ReindexError ReindexerState :=
  if env.metadata_file_exists storage_options.uri then
    if (env.read_metadata storage_options.uri).relative_file_paths.isEmpty then
      .ok { metadata := env.read_metadata storage_options.uri, file_paths := [],
            storage := none, topics_metadata := [],
            warnings := ["No file paths were found in metadata."], checks_ran := false }
    else
      match resolve_relative_paths env storage_options.uri
          (env.read_metadata storage_options.uri).relative_file_paths
          (env.read_metadata storage_options.uri).version with
      | .error e => .error e
      | .ok file_paths =>
        match env.open_read_only (file_paths.headD "") storage_options.storage_id with
        | none => .error (.OpenError "No storage could be initialized. Abort")
        | some storage =>
          finish_open env converter_options (env.read_metadata storage_options.uri)
            file_paths storage
  else
    match env.open_read_only storage_options.uri storage_options.storage_id with
    | none => .error (.OpenError "No storage could be initialized. Abort")
    | some storage =>
      if storage.metadata.relative_file_paths.isEmpty then
        .ok { metadata := storage.metadata, file_paths := [], storage := some storage,
              topics_metadata := [],
              warnings := ["No file paths were found in metadata."], checks_ran := false }
      else
        finish_open env converter_options storage.metadata
          storage.metadata.relative_file_paths storage

/-- The metadata `open` works from: the persisted index when one exists at the
URI, otherwise whatever the opened backend self-reports. -/
def loaded_metadata (env : Env) (storage_options : StorageOptions) : BagMetadata :=
  if env.metadata_file_exists storage_options.uri then
    env.read_metadata storage_options.uri
  else
    match env.open_read_only storage_options.uri storage_options.storage_id with
    | some storage => storage.metadata
    | none => {}

/-! ## Claim C6 -/

/-- C6: whenever the storage factory yields no handle — on the first resolved
file in the persisted-index path, or on the raw URI in the no-index fallback
path — `open` fails with the `OpenError` of source lines 94–96 and 100–102. -/
theorem open_error_when_backend_unavailable (env : Env)
    (storage_options : StorageOptions) (converter_options : ConverterOptions)
    (fps : List String) :
    (env.metadata_file_exists storage_options.uri = true →
     (env.read_metadata storage_options.uri).relative_file_paths.isEmpty = false →
     resolve_relative_paths env storage_options.uri
       (env.read_metadata storage_options.uri).relative_file_paths
       (env.read_metadata storage_options.uri).version = .ok fps →
     env.open_read_only (fps.headD "") storage_options.storage_id = none →
     open_reindexer env storage_options converter_options =
       .error (.OpenError "No storage could be initialized. Abort")) ∧
    (env.metadata_file_exists storage_options.uri = false →
     env.open_read_only storage_options.uri storage_options.storage_id = none →
     open_reindexer env storage_options converter_options =
       .error (.OpenError "No storage could be initialized. Abort")) := by
  constructor
  · intro h1 h2 h3 h4
    rw [List.headD_eq_head?] at h4
    simp [open_reindexer, h1, h2, h3, h4]
  · intro h1 h2
    simp [open_reindexer, h1, h2]

/-- A persisted index at `/bags/mybag` whose single relative path resolves,
but whose backend cannot be instantiated. -/
def env_no_backend_indexed : Env :=
  { fs_exists := fun p => p == "/bags/mybag",
    is_directory := fun p => p == "/bags/mybag",
    metadata_file_exists := fun p => p == "/bags/mybag",
    read_metadata := fun _ => { relative_file_paths := ["bag_0.db3"] },
    open_read_only := fun _ _ => none,
    converter_available := fun _ _ => false }

/-- No persisted index anywhere and a backend that cannot be instantiated. -/
def env_no_backend_raw : Env :=
  { fs_exists := fun _ => false,
    is_directory := fun _ => false,
    metadata_file_exists := fun _ => false,
    read_metadata := fun _ => {},
    open_read_only := fun _ _ => none,
    converter_available := fun _ _ => false }

/-- Witness for C6, exercising both the persisted-index path and the fallback
path at concrete environments. -/
theorem open_error_when_backend_unavailable_witness :
    open_reindexer env_no_backend_indexed ⟨"/bags/mybag", "sqlite3"⟩ ⟨""⟩ =
      .error (.OpenError "No storage could be initialized. Abort") ∧
    open_reindexer env_no_backend_raw ⟨"/bags/mybag", "sqlite3"⟩ ⟨""⟩ =
      .error (.OpenError "No storage could be initialized. Abort") :=
  ⟨(open_error_when_backend_unavailable env_no_backend_indexed
      ⟨"/bags/mybag", "sqlite3"⟩ ⟨""⟩ ["/bags/mybag/bag_0.db3"]).1
      (by decide) (by decide) (by decide) (by decide),
   (open_error_when_backend_unavailable env_no_backend_raw
      ⟨"/bags/mybag", "sqlite3"⟩ ⟨""⟩ []).2 (by decide) (by decide)⟩

/-! ## Claim C7 -/

/-- C7: when the loaded (persisted-index path) or backend-derived (fallback
path) metadata lists no segment file paths, `open` returns successfully with
empty `file_paths_`, after logging the warning of source lines 84 and 105; no
error is raised. -/
theorem open_empty_paths_warns (env : Env) (storage_options : StorageOptions)
    (converter_options : ConverterOptions) (handle : StorageHandle) :
    (env.metadata_file_exists storage_options.uri = true →
     (env.read_metadata storage_options.uri).relative_file_paths = [] →
     open_reindexer env storage_options converter_options =
       .ok { metadata := env.read_metadata storage_options.uri, file_paths := [],
             storage := none, topics_metadata := [],
             warnings := ["No file paths were found in metadata."],
             checks_ran := false }) ∧
    (env.metadata_file_exists storage_options.uri = false →
     env.open_read_only storage_options.uri storage_options.storage_id = some handle →
     handle.metadata.relative_file_paths = [] →
     open_reindexer env storage_options converter_options =
       .ok { metadata := handle.metadata, file_paths := [], storage := some handle,
             topics_metadata := [],
             warnings := ["No file paths were found in metadata."],
             checks_ran := false }) := by
  constructor
  · intro h1 h2
    simp [open_reindexer, h1, h2]
  · intro h1 h2 h3
    simp [open_reindexer, h1, h2, h3]

/-- A persisted index whose metadata lists no segment files. -/
def env_empty_index : Env :=
  { fs_exists := fun _ => true,
    is_directory := fun _ => true,
    metadata_file_exists := fun p => p == "/bags/empty",
    read_metadata := fun _ => {},
    open_read_only := fun _ _ => none,
    converter_available := fun _ _ => false }

/-- A backend whose self-reported metadata lists no segment files. -/
def handle_empty : StorageHandle :=
  { metadata := {}, storage_identifier := "sqlite3", relative_file_path := "bag_0.db3" }

/-- No persisted index; the backend opens but self-reports no segment files. -/
def env_empty_fallback : Env :=
  { fs_exists := fun _ => true,
    is_directory := fun _ => true,
    metadata_file_exists := fun _ => false,
    read_metadata := fun _ => {},
    open_read_only := fun _ _ => some handle_empty,
    converter_available := fun _ _ => false }

/-- Witness for C7, exercising both branches at concrete environments. -/
theorem open_empty_paths_warns_witness :
    open_reindexer env_empty_index ⟨"/bags/empty", ""⟩ ⟨""⟩ =
      .ok { metadata := env_empty_index.read_metadata "/bags/empty", file_paths := [],
            storage := none, topics_metadata := [],
            warnings := ["No file paths were found in metadata."],
            checks_ran := false } ∧
    open_reindexer env_empty_fallback ⟨"/bags/empty", ""⟩ ⟨""⟩ =
      .ok { metadata := handle_empty.metadata, file_paths := [],
            storage := some handle_empty, topics_metadata := [],
            warnings := ["No file paths were found in metadata."],
            checks_ran := false } :=
  ⟨(open_empty_paths_warns env_empty_index ⟨"/bags/empty", ""⟩ ⟨""⟩ handle_empty).1
      (by decide) (by decide),
   (open_empty_paths_warns env_empty_fallback ⟨"/bags/empty", ""⟩ ⟨""⟩ handle_empty).2
      (by decide) (by decide) (by decide)⟩

/-! ## Claims C9 and C10: helper lemmas -/

/-- `finish_open` can only fail when the metadata lists at least one topic. -/
theorem finish_open_error_topics (env : Env) (converter_options : ConverterOptions)
    (metadata : BagMetadata) (file_paths : List String) (storage : StorageHandle)
    (e : ReindexError)
    (h : finish_open env converter_options metadata file_paths storage = .error e) :
    metadata.topics_with_message_count ≠ [] := by
  intro hnil
  unfold finish_open at h
  rw [hnil] at h
  simp at h

/-- The only errors of `resolve_relative_paths` are `NotFoundError`s. -/
theorem resolve_error_notfound (env : Env) (base_folder : String)
    (relative_files : List String) (version : Int) (e : ReindexError)
    (h : resolve_relative_paths env base_folder relative_files version = .error e) :
    ∃ msg, e = .NotFoundError msg := by
  unfold resolve_relative_paths at h
  split at h
  · injection h with h
    exact ⟨_, h.symm⟩
  · split at h
    · injection h with h
      exact ⟨_, h.symm⟩
    · simp at h

/-- A successful `finish_open` keeps the segment list, the metadata and the
handle it was given. -/
theorem finish_open_ok_state (env : Env) (converter_options : ConverterOptions)
    (metadata : BagMetadata) (file_paths : List String) (storage : StorageHandle)
    (st : ReindexerState)
    (h : finish_open env converter_options metadata file_paths storage = .ok st) :
    st.file_paths = file_paths ∧ st.metadata = metadata ∧ st.storage = some storage := by
  unfold finish_open at h
  split at h
  · injection h with h
    subst h
    exact ⟨rfl, rfl, rfl⟩
  · split at h
    · simp at h
    · split at h
      · simp at h
      · injection h with h
        subst h
        exact ⟨rfl, rfl, rfl⟩

/-- When the metadata `open` works from lists no topics, any failure of `open`
is a `NotFoundError` or an `OpenError` — never one produced by the
serialization-format checks. -/
theorem open_error_empty_topics (env : Env) (storage_options : StorageOptions)
    (converter_options : ConverterOptions) (e : ReindexError)
    (hnil : (loaded_metadata env storage_options).topics_with_message_count = [])
    (h : open_reindexer env storage_options converter_options = .error e) :
    (∃ m, e = .NotFoundError m) ∨ (∃ m, e = .OpenError m) := by
  by_cases h1 : env.metadata_file_exists storage_options.uri = true
  · have hl : loaded_metadata env storage_options = env.read_metadata storage_options.uri := by
      simp [loaded_metadata, h1]
    rw [hl] at hnil
    cases hemp : (env.read_metadata storage_options.uri).relative_file_paths.isEmpty with
    | true => simp [open_reindexer, h1, hemp] at h
    | false =>
      cases hres : resolve_relative_paths env storage_options.uri
          (env.read_metadata storage_options.uri).relative_file_paths
          (env.read_metadata storage_options.uri).version with
      | error e2 =>
        simp [open_reindexer, h1, hemp, hres] at h
        subst h
        exact Or.inl (resolve_error_notfound _ _ _ _ _ hres)
      | ok fps =>
        simp [open_reindexer, h1, hemp, hres] at h
        cases hop : env.open_read_only (fps.head?.getD "") storage_options.storage_id with
        | none =>
          rw [hop] at h
          injection h with h
          exact Or.inr ⟨_, h.symm⟩
        | some storage =>
          rw [hop] at h
          exact absurd hnil (finish_open_error_topics _ _ _ _ _ _ h)
  · have h1f : env.metadata_file_exists storage_options.uri = false := by
      cases hx : env.metadata_file_exists storage_options.uri
      · rfl
      · exact absurd hx h1
    cases hop : env.open_read_only storage_options.uri storage_options.storage_id with
    | none =>
      simp [open_reindexer, h1f, hop] at h
      subst h
      exact Or.inr ⟨_, rfl⟩
    | some storage =>
      have hl : loaded_metadata env storage_options = storage.metadata := by
        simp [loaded_metadata, h1f, hop]
      rw [hl] at hnil
      cases hemp : storage.metadata.relative_file_paths.isEmpty with
      | true => simp [open_reindexer, h1f, hop, hemp] at h
      | false =>
        simp [open_reindexer, h1f, hop, hemp] at h
        exact absurd hnil (finish_open_error_topics _ _ _ _ _ _ h)

/-! ## Claim C9 -/

/-- C9: with non-empty `relative_file_paths` but no topics listed, `open`
returns successfully after the "No topics" warning, without running the
serialization-format consistency check or the converter-availability check;
and `InconsistentFormatError` / `UnsupportedConversionError` can only escape
`open` when the loaded metadata lists at least one topic. -/
theorem open_checks_only_with_topics (env : Env) (storage_options : StorageOptions)
    (converter_options : ConverterOptions) (fps : List String) (handle : StorageHandle) :
    (env.metadata_file_exists storage_options.uri = true →
     (env.read_metadata storage_options.uri).relative_file_paths.isEmpty = false →
     resolve_relative_paths env storage_options.uri
       (env.read_metadata storage_options.uri).relative_file_paths
       (env.read_metadata storage_options.uri).version = .ok fps →
     env.open_read_only (fps.headD "") storage_options.storage_id = some handle →
     (env.read_metadata storage_options.uri).topics_with_message_count = [] →
     open_reindexer env storage_options converter_options =
       .ok { metadata := env.read_metadata storage_options.uri, file_paths := fps,
             storage := some handle, topics_metadata := [],
             warnings := ["No topics were listed in metadata."], checks_ran := false }) ∧
    (env.metadata_file_exists storage_options.uri = false →
     env.open_read_only storage_options.uri storage_options.storage_id = some handle →
     handle.metadata.relative_file_paths.isEmpty = false →
     handle.metadata.topics_with_message_count = [] →
     open_reindexer env storage_options converter_options =
       .ok { metadata := handle.metadata,
             file_paths := handle.metadata.relative_file_paths,
             storage := some handle, topics_metadata := [],
             warnings := ["No topics were listed in metadata."], checks_ran := false }) ∧
    (∀ msg,
      (open_reindexer env storage_options converter_options =
         .error (.InconsistentFormatError msg) ∨
       open_reindexer env storage_options converter_options =
         .error (.UnsupportedConversionError msg)) →
      (loaded_metadata env storage_options).topics_with_message_count ≠ []) := by
  refine ⟨?_, ?_, ?_⟩
  · intro h1 h2 h3 h4 h5
    rw [List.headD_eq_head?] at h4
    simp [open_reindexer, finish_open, h1, h2, h3, h4, h5]
  · intro h1 h2 h3 h4
    simp [open_reindexer, finish_open, h1, h2, h3, h4]
  · intro msg hor hnil
    rcases hor with h | h
    · rcases open_error_empty_topics env storage_options converter_options _ hnil h with
        ⟨m, hm⟩ | ⟨m, hm⟩ <;> simp at hm
    · rcases open_error_empty_topics env storage_options converter_options _ hnil h with
        ⟨m, hm⟩ | ⟨m, hm⟩ <;> simp at hm

/-- An index with one segment but no topics listed. -/
def meta_no_topics : BagMetadata := { relative_file_paths := ["bag_0.db3"] }

/-- A backend handle self-reporting the no-topics index. -/
def handle_no_topics : StorageHandle :=
  { metadata := meta_no_topics, storage_identifier := "sqlite3",
    relative_file_path := "bag_0.db3" }

/-- A persisted index with one segment but no topics listed. -/
def env_no_topics_indexed : Env :=
  { fs_exists := fun p => p == "/bags/mybag",
    is_directory := fun p => p == "/bags/mybag",
    metadata_file_exists := fun p => p == "/bags/mybag",
    read_metadata := fun _ => meta_no_topics,
    open_read_only := fun _ _ => some handle_no_topics,
    converter_available := fun _ _ => false }

/-- Metadata of topic `imu`, serialization format `cdr`. -/
def tm_imu : TopicMetadata :=
  { name := "imu", type := "sensor_msgs/msg/Imu", serialization_format := "cdr" }

/-- Topic `imu` with its message count. -/
def topic_imu : TopicInformation :=
  { topic_metadata := tm_imu, message_count := 5 }

/-- Metadata of topic `gps`, serialization format `json` — inconsistent with
`cdr`. -/
def tm_gps : TopicMetadata :=
  { name := "gps", type := "sensor_msgs/msg/NavSatFix", serialization_format := "json" }

/-- Topic `gps` with its message count. -/
def topic_gps : TopicInformation :=
  { topic_metadata := tm_gps, message_count := 2 }

/-- A persisted index listing one segment and the two format-inconsistent
topics. -/
def meta_inconsistent : BagMetadata :=
  { relative_file_paths := ["bag_0.db3"],
    topics_with_message_count := [topic_imu, topic_gps] }

/-- A source whose persisted index holds two topics disagreeing on the
serialization format. -/
def env_inconsistent : Env :=
  { fs_exists := fun p => p == "/bags/mybag",
    is_directory := fun p => p == "/bags/mybag",
    metadata_file_exists := fun p => p == "/bags/mybag",
    read_metadata := fun _ => meta_inconsistent,
    open_read_only := fun _ _ => some handle_empty,
    converter_available := fun _ _ => false }

/-- Witness for C9: the no-topics source opens successfully with the checks
skipped, and the inconsistent-format error implies a non-empty topic list. -/
theorem open_checks_only_with_topics_witness :
    open_reindexer env_no_topics_indexed ⟨"/bags/mybag", "sqlite3"⟩ ⟨""⟩ =
      .ok { metadata := env_no_topics_indexed.read_metadata "/bags/mybag",
            file_paths := ["/bags/mybag/bag_0.db3"],
            storage := some handle_no_topics,
            topics_metadata := [],
            warnings := ["No topics were listed in metadata."], checks_ran := false } ∧
    (loaded_metadata env_inconsistent ⟨"/bags/mybag", "sqlite3"⟩).topics_with_message_count ≠ [] :=
  ⟨(open_checks_only_with_topics env_no_topics_indexed ⟨"/bags/mybag", "sqlite3"⟩ ⟨""⟩
      ["/bags/mybag/bag_0.db3"] handle_no_topics).1
      (by decide) (by decide) (by decide) (by decide) (by decide),
   (open_checks_only_with_topics env_inconsistent ⟨"/bags/mybag", "sqlite3"⟩ ⟨""⟩
      [] handle_empty).2.2 "gps" (Or.inl (by decide))⟩

/-! ## Claim C10 -/

/-- C10: when `open` succeeds, the segment list it retains is the resolver's
output in the persisted-index path, but in the no-index fallback path it is
the backend's self-reported `relative_file_paths`, taken verbatim without any
resolution. -/
theorem open_file_paths_resolved_vs_verbatim (env : Env)
    (storage_options : StorageOptions) (converter_options : ConverterOptions)
    (fps : List String) (handle : StorageHandle) (st : ReindexerState) :
    (env.metadata_file_exists storage_options.uri = true →
     (env.read_metadata storage_options.uri).relative_file_paths.isEmpty = false →
     resolve_relative_paths env storage_options.uri
       (env.read_metadata storage_options.uri).relative_file_paths
       (env.read_metadata storage_options.uri).version = .ok fps →
     open_reindexer env storage_options converter_options = .ok st →
     st.file_paths = fps) ∧
    (env.metadata_file_exists storage_options.uri = false →
     env.open_read_only storage_options.uri storage_options.storage_id = some handle →
     handle.metadata.relative_file_paths.isEmpty = false →
     open_reindexer env storage_options converter_options = .ok st →
     st.file_paths = handle.metadata.relative_file_paths) := by
  constructor
  · intro h1 h2 h3 h4
    simp [open_reindexer, h1, h2, h3] at h4
    cases hop : env.open_read_only (fps.head?.getD "") storage_options.storage_id with
    | none =>
      rw [hop] at h4
      simp at h4
    | some storage =>
      rw [hop] at h4
      exact (finish_open_ok_state _ _ _ _ _ _ h4).1
  · intro h1 h2 h3 h4
    simp [open_reindexer, h1, h2, h3] at h4
    exact (finish_open_ok_state _ _ _ _ _ _ h4).1

/-- A consistent persisted index over the single topic `imu`. -/
def meta_full : BagMetadata :=
  { relative_file_paths := ["bag_0.db3"], topics_with_message_count := [topic_imu] }

/-- A backend handle carrying the consistent index. -/
def handle_full : StorageHandle :=
  { metadata := meta_full, storage_identifier := "sqlite3",
    relative_file_path := "bag_0.db3" }

/-- A source with the consistent persisted index at `/bags/mybag`. -/
def env_full_index : Env :=
  { fs_exists := fun p => p == "/bags/mybag",
    is_directory := fun p => p == "/bags/mybag",
    metadata_file_exists := fun p => p == "/bags/mybag",
    read_metadata := fun _ => meta_full,
    open_read_only := fun _ _ => some handle_full,
    converter_available := fun _ _ => false }

/-- The same source without a persisted index: only the backend reports
its metadata. -/
def env_full_fallback : Env :=
  { fs_exists := fun p => p == "/bags/mybag",
    is_directory := fun p => p == "/bags/mybag",
    metadata_file_exists := fun _ => false,
    read_metadata := fun _ => {},
    open_read_only := fun _ _ => some handle_full,
    converter_available := fun _ _ => false }

/-- The state `open` reaches on the consistent persisted index: the segment
list went through the resolver. -/
def state_resolved : ReindexerState :=
  { metadata := meta_full, file_paths := ["/bags/mybag/bag_0.db3"],
    storage := some handle_full, topics_metadata := [tm_imu],
    warnings := [], checks_ran := true }

/-- The state `open` reaches on the fallback source: the segment list is the
backend's own, verbatim. -/
def state_verbatim : ReindexerState :=
  { metadata := meta_full, file_paths := ["bag_0.db3"],
    storage := some handle_full, topics_metadata := [tm_imu],
    warnings := [], checks_ran := true }

/-- Witness for C10: on the same bag, the persisted-index path keeps the
resolved absolute segment path while the fallback path keeps the backend's
relative one verbatim. -/
theorem open_file_paths_resolved_vs_verbatim_witness :
    state_resolved.file_paths = ["/bags/mybag/bag_0.db3"] ∧
    state_verbatim.file_paths = handle_full.metadata.relative_file_paths :=
  ⟨(open_file_paths_resolved_vs_verbatim env_full_index ⟨"/bags/mybag", ""⟩ ⟨""⟩
      ["/bags/mybag/bag_0.db3"] handle_full state_resolved).1
      (by decide) (by decide) (by decide) (by decide),
   (open_file_paths_resolved_vs_verbatim env_full_fallback ⟨"/bags/mybag", ""⟩ ⟨""⟩
      [] handle_full state_verbatim).2
      (by decide) (by decide) (by decide) (by decide)⟩

/-! ## `SequentialReindexer::init_metadata` (source lines 135–142) and the
scan/build pass of `reindex()` -/

/-- `std::chrono::nanoseconds::max()`: the largest signed 64-bit nanosecond
count — the "unbounded future" sentinel. -/
def nanoseconds_max : Int := 9223372036854775807

/-- `std::chrono::nanoseconds::min()`: the smallest signed 64-bit nanosecond
count — the "unbounded past" sentinel. -/
def nanoseconds_min : Int := -9223372036854775808

/-- `SequentialReindexer::init_metadata`: reset the metadata to a
default-constructed `BagMetadata`, record the storage identifier, set
`starting_time` to the "unbounded future" sentinel, and list the single
current segment stripped of its parent path. -/
def init_metadata (storage : StorageHandle) : BagMetadata :=
  { storage_identifier := storage.storage_identifier,
    starting_time := nanoseconds_max,
    relative_file_paths := [strip_parent_path storage.relative_file_path] }

/-- Modelled from the spec: a record as the SegmentScanner reports it (§4.4,
absent from the shown source) — the routing key (topic), a timestamp, and the
record's byte size. -/
structure ScanRecord where
  topic : String
  timestamp : Int
  byte_size : Nat
deriving DecidableEq

/-- Modelled from the spec: one segment file with its ordered records
(§4.4, absent from the shown source). -/
structure Segment where
  path : String
  records : List ScanRecord
deriving DecidableEq

/-- Modelled from the spec: the SegmentScanner (§4.4, absent from the shown
source) visits segments in list order and records in on-disk order within
each segment. -/
def scan (segments : List Segment) : List ScanRecord :=
  (segments.map Segment.records).flatten

/-- Modelled from the spec: the MetadataBuilder accumulator (§4.5, absent
from the shown source) — running per-topic counts and the extremal
timestamps. -/
structure BuilderState where
  topics : List (String × Nat)
  starting_time : Int
  ending_time : Int
deriving DecidableEq

/-- Modelled from the spec: the builder before any record is seen (§4.5) —
no topics, `starting_time` at "unbounded future", `ending_time` at
"unbounded past" (the `starting_time` sentinel is the one `init_metadata`
sets in the shown source). -/
def init_builder : BuilderState :=
  { topics := [], starting_time := nanoseconds_max, ending_time := nanoseconds_min }

/-- Increment the running count of a topic, appending a fresh entry on first
occurrence (first-appearance order is kept). -/
def bump : List (String × Nat) → String → List (String × Nat)
  | [], t => [(t, 1)]
  | p :: rest, t =>
    if p.1 == t then (p.1, p.2 + 1) :: rest else p :: bump rest t

/-- Modelled from the spec: fold one scanned record into the builder (§4.5) —
count it for its topic and widen the observed time span. -/
def build_step (st : BuilderState) (r : ScanRecord) : BuilderState :=
  { topics := bump st.topics r.topic,
    starting_time := min st.starting_time r.timestamp,
    ending_time := max st.ending_time r.timestamp }

/-- Modelled from the spec: run the builder over the whole scan (§4.5). -/
def build (records : List ScanRecord) : BuilderState :=
  records.foldl build_step init_builder

/-- The count the builder reports for a topic (0 when the topic was never
seen). -/
def topic_count (topics : List (String × Nat)) (t : String) : Nat :=
  ((topics.find? (fun p => p.1 == t)).map Prod.snd).getD 0

/-- Modelled from the spec: the `BagMetadata` rebuilt by `reindex()` (§4.5,
§4.6) — per-topic counts, extremal timestamps, the segment list verbatim, and
the empty-recording flag for a scan that saw zero records. -/
structure ReindexResult where
  topics_with_message_count : List (String × Nat)
  starting_time : Int
  ending_time : Int
  relative_file_paths : List String
  empty_recording : Bool
deriving DecidableEq

/-- Modelled from the spec: the full reindex pass over an open source (§4.4
and §4.5): scan every segment in order and rebuild the catalog from
scratch. -/
def reindex_source (segments : List Segment) : ReindexResult :=
  { topics_with_message_count := (build (scan segments)).topics,
    starting_time := (build (scan segments)).starting_time,
    ending_time := (build (scan segments)).ending_time,
    relative_file_paths := segments.map Segment.path,
    empty_recording := (scan segments).isEmpty }

/-- Modelled from the spec: the orchestrator's lifecycle (§4.6) — `Closed`,
or `Open` on a source. -/
inductive Lifecycle where
  | closed : Lifecycle
  | opened (segments : List Segment) : Lifecycle
deriving DecidableEq

/-- Modelled from the spec: the orchestrator — its lifecycle state and the
metadata it currently owns. -/
structure ReindexerMachine where
  lifecycle : Lifecycle
  metadata : Option ReindexResult
deriving DecidableEq

/-- Modelled from the spec: `reindex()` as §4.6 specifies it — requires
`Open`, failing with `NotOpenError` otherwise; discards whatever metadata the
machine held and recomputes it from the source. -/
def reindex_op (m : ReindexerMachine) :
    Except ReindexError (ReindexerMachine × ReindexResult) :=
  match m.lifecycle with
  | .closed => .error (.NotOpenError "Bag is not open. Call open() before reading.")
  | .opened segments =>
    .ok ({ lifecycle := m.lifecycle, metadata := some (reindex_source segments) },
         reindex_source segments)

/-- `SequentailReindexer::reindex` exactly as committed (source lines
144–150): the `init_metadata()` baseline call is commented out and the
function unconditionally throws a `std::runtime_error`, whatever the state of
the reindexer. -/
def reindex_as_written (_m : ReindexerMachine) : Except ReindexError Unit :=
  .error (.RuntimeError "Successfully called Reindex!")

/-! ## Counting lemmas for the builder -/

/-- Unfolding `bump` on a non-empty list. -/
theorem bump_cons (p : String × Nat) (rest : List (String × Nat)) (t : String) :
    bump (p :: rest) t =
      if p.1 == t then (p.1, p.2 + 1) :: rest else p :: bump rest t := rfl

/-- `topic_count` on the empty catalog. -/
theorem topic_count_nil (t : String) : topic_count [] t = 0 := rfl

/-- Unfolding `topic_count` on a non-empty catalog. -/
theorem topic_count_cons (q : String × Nat) (rest : List (String × Nat)) (t : String) :
    topic_count (q :: rest) t = if q.1 == t then q.2 else topic_count rest t := by
  by_cases h : q.1 = t
  · have hb : (q.1 == t) = true := beq_iff_eq.mpr h
    simp [topic_count, List.find?_cons_of_pos, hb]
  · have hb : (q.1 == t) = false := beq_eq_false_iff_ne.mpr h
    simp [topic_count, List.find?_cons_of_neg, hb]

/-- `bump` adds exactly one to the total of the counts. -/
theorem bump_sum (l : List (String × Nat)) (t : String) :
    ((bump l t).map Prod.snd).sum = (l.map Prod.snd).sum + 1 := by
  induction l with
  | nil => simp [bump]
  | cons p rest ih =>
    rw [bump_cons]
    by_cases hp : p.1 = t
    · have hb : (p.1 == t) = true := beq_iff_eq.mpr hp
      rw [if_pos hb]
      simp
      omega
    · have hb : (p.1 == t) = false := beq_eq_false_iff_ne.mpr hp
      rw [if_neg (by simp [hb])]
      simp [ih]
      omega

/-- `bump` adds one to the count of the bumped topic and leaves every other
count unchanged. -/
theorem topic_count_bump (l : List (String × Nat)) (rt t : String) :
    topic_count (bump l rt) t = topic_count l t + (if rt == t then 1 else 0) := by
  induction l with
  | nil =>
    rw [show bump [] rt = [(rt, 1)] from rfl, topic_count_cons, topic_count_nil]
    by_cases h : rt = t
    · have hb : (rt == t) = true := beq_iff_eq.mpr h
      simp [hb]
    · have hb : (rt == t) = false := beq_eq_false_iff_ne.mpr h
      simp [hb]
  | cons p rest ih =>
    rw [bump_cons]
    by_cases hp : p.1 = rt
    · have hb : (p.1 == rt) = true := beq_iff_eq.mpr hp
      rw [if_pos hb, topic_count_cons, topic_count_cons]
      by_cases ht : p.1 = t
      · have hbt : (p.1 == t) = true := beq_iff_eq.mpr ht
        have hrt : (rt == t) = true := beq_iff_eq.mpr (by rw [← hp]; exact ht)
        simp [hbt, hrt]
      · have hbt : (p.1 == t) = false := beq_eq_false_iff_ne.mpr ht
        have hrt : (rt == t) = false :=
          beq_eq_false_iff_ne.mpr (by rw [← hp]; exact ht)
        simp [hbt, hrt]
    · have hb : (p.1 == rt) = false := beq_eq_false_iff_ne.mpr hp
      rw [if_neg (by simp [hb]), topic_count_cons, topic_count_cons, ih]
      by_cases ht : p.1 = t
      · have hbt : (p.1 == t) = true := beq_iff_eq.mpr ht
        have hrt : (rt == t) = false :=
          beq_eq_false_iff_ne.mpr (fun hc => hp (by rw [ht, hc]))
        simp [hbt, hrt]
      · have hbt : (p.1 == t) = false := beq_eq_false_iff_ne.mpr ht
        simp [hbt]

/-- Keys reached by `bump` come from the old keys or are the bumped topic. -/
theorem bump_keys_sub (l : List (String × Nat)) (t s : String)
    (h : s ∈ (bump l t).map Prod.fst) : s ∈ l.map Prod.fst ∨ s = t := by
  induction l with
  | nil =>
    rw [show bump [] t = [(t, 1)] from rfl] at h
    simp at h
    exact Or.inr h
  | cons p rest ih =>
    rw [bump_cons] at h
    by_cases hp : p.1 = t
    · have hb : (p.1 == t) = true := beq_iff_eq.mpr hp
      rw [if_pos hb] at h
      simp only [List.map_cons, List.mem_cons] at h
      rcases h with h | h
      · exact Or.inl (by simp only [List.map_cons, List.mem_cons]; exact Or.inl h)
      · exact Or.inl (by simp only [List.map_cons, List.mem_cons]; exact Or.inr h)
    · have hb : (p.1 == t) = false := beq_eq_false_iff_ne.mpr hp
      rw [if_neg (by simp [hb])] at h
      simp only [List.map_cons, List.mem_cons] at h
      rcases h with h | h
      · exact Or.inl (by simp only [List.map_cons, List.mem_cons]; exact Or.inl h)
      · rcases ih h with h2 | h2
        · exact Or.inl (by simp only [List.map_cons, List.mem_cons]; exact Or.inr h2)
        · exact Or.inr h2

/-- `bump` preserves distinctness of the topic keys. -/
theorem bump_keys_nodup (l : List (String × Nat)) (t : String)
    (h : (l.map Prod.fst).Nodup) : ((bump l t).map Prod.fst).Nodup := by
  induction l with
  | nil =>
    rw [show bump [] t = [(t, 1)] from rfl]
    simp
  | cons p rest ih =>
    rw [List.map_cons, List.nodup_cons] at h
    rw [bump_cons]
    by_cases hp : p.1 = t
    · have hb : (p.1 == t) = true := beq_iff_eq.mpr hp
      rw [if_pos hb, List.map_cons, List.nodup_cons]
      exact h
    · have hb : (p.1 == t) = false := beq_eq_false_iff_ne.mpr hp
      rw [if_neg (by simp [hb]), List.map_cons, List.nodup_cons]
      refine ⟨?_, ih h.2⟩
      intro hc
      rcases bump_keys_sub rest t p.1 hc with h2 | h2
      · exact h.1 h2
      · exact hp h2

/-- With distinct keys, each entry's stored count is the count `topic_count`
reports for its key. -/
theorem topic_count_of_mem (l : List (String × Nat)) (p : String × Nat)
    (hnd : (l.map Prod.fst).Nodup) (hp : p ∈ l) : topic_count l p.1 = p.2 := by
  induction l with
  | nil => simp at hp
  | cons q rest ih =>
    rw [List.map_cons, List.nodup_cons] at hnd
    rw [topic_count_cons]
    rcases List.mem_cons.mp hp with h | h
    · subst h
      simp
    · have hq : q.1 ≠ p.1 := by
        intro hc
        exact hnd.1 (by rw [hc]; exact List.mem_map_of_mem Prod.fst h)
      have hb : (q.1 == p.1) = false := beq_eq_false_iff_ne.mpr hq
      rw [hb]
      simp
      exact ih hnd.2 h

/-- Folding records into any builder state adds, topic by topic, exactly the
number of records carrying that topic. -/
theorem build_go_count (records : List ScanRecord) (st : BuilderState) (t : String) :
    topic_count ((records.foldl build_step st).topics) t =
      topic_count st.topics t + records.countP (fun r => r.topic == t) := by
  induction records generalizing st with
  | nil => simp
  | cons r rest ih =>
    rw [List.foldl_cons, ih, List.countP_cons]
    rw [show (build_step st r).topics = bump st.topics r.topic from rfl]
    rw [topic_count_bump]
    by_cases h : r.topic = t
    · have hb : (r.topic == t) = true := beq_iff_eq.mpr h
      simp [hb]
      omega
    · have hb : (r.topic == t) = false := beq_eq_false_iff_ne.mpr h
      simp [hb]

/-- Folding records into any builder state adds the number of records to the
total of the counts. -/
theorem build_go_sum (records : List ScanRecord) (st : BuilderState) :
    (((records.foldl build_step st).topics).map Prod.snd).sum =
      ((st.topics).map Prod.snd).sum + records.length := by
  induction records generalizing st with
  | nil => simp
  | cons r rest ih =>
    rw [List.foldl_cons, ih, List.length_cons]
    rw [show (build_step st r).topics = bump st.topics r.topic from rfl, bump_sum]
    omega

/-- The builder keeps its topic keys distinct. -/
theorem build_go_nodup (records : List ScanRecord) (st : BuilderState)
    (h : (st.topics.map Prod.fst).Nodup) :
    (((records.foldl build_step st).topics).map Prod.fst).Nodup := by
  induction records generalizing st with
  | nil => exact h
  | cons r rest ih =>
    exact ih _ (bump_keys_nodup _ _ h)

/-! ## Claim C1 -/

/-- C1: over any synthetic segment set, the catalog `reindex` rebuilds counts
exactly: the per-topic counts sum to the total number of scanned records, the
count reported for every topic equals the number of records observed for it,
and every entry of `topics_with_message_count` carries the true count of its
topic. -/
theorem reindex_counts_match_scan (segments : List Segment) :
    (((reindex_source segments).topics_with_message_count.map Prod.snd).sum =
      (scan segments).length) ∧
    (∀ t, topic_count (reindex_source segments).topics_with_message_count t =
      (scan segments).countP (fun r => r.topic == t)) ∧
    (∀ p ∈ (reindex_source segments).topics_with_message_count,
      p.2 = (scan segments).countP (fun r => r.topic == p.1)) := by
  refine ⟨?_, ?_, ?_⟩
  · have h := build_go_sum (scan segments) init_builder
    simpa [reindex_source, build, init_builder] using h
  · intro t
    have h := build_go_count (scan segments) init_builder t
    simpa [reindex_source, build, init_builder, topic_count] using h
  · intro p hp
    simp only [reindex_source] at hp
    have hnd := build_go_nodup (scan segments) init_builder (by simp [init_builder])
    have h1 := topic_count_of_mem _ p hnd (by simpa [build] using hp)
    have h2 := build_go_count (scan segments) init_builder p.1
    rw [← h1]
    simpa [init_builder, topic_count_nil] using h2

/-- A demo segment holding two `imu` records. -/
def seg_demo1 : Segment :=
  { path := "bag_0.db3", records := [⟨"imu", 10, 8⟩, ⟨"imu", 12, 8⟩] }

/-- A demo segment holding one `gps` record. -/
def seg_demo2 : Segment :=
  { path := "bag_1.db3", records := [⟨"gps", 11, 16⟩] }

/-- Witness for C1 on a two-segment, two-topic source, instantiated at topic
`imu` and at the catalog entry `("imu", 2)`. -/
theorem reindex_counts_match_scan_witness :
    (((reindex_source [seg_demo1, seg_demo2]).topics_with_message_count.map Prod.snd).sum =
      (scan [seg_demo1, seg_demo2]).length) ∧
    (topic_count (reindex_source [seg_demo1, seg_demo2]).topics_with_message_count "imu" =
      (scan [seg_demo1, seg_demo2]).countP (fun r => r.topic == "imu")) ∧
    (("imu", 2).2 =
      (scan [seg_demo1, seg_demo2]).countP (fun r => r.topic == ("imu", 2).1)) :=
  ⟨(reindex_counts_match_scan [seg_demo1, seg_demo2]).1,
   (reindex_counts_match_scan [seg_demo1, seg_demo2]).2.1 "imu",
   (reindex_counts_match_scan [seg_demo1, seg_demo2]).2.2 ("imu", 2) (by decide)⟩

/-! ## Claim C2 -/

/-- C2: on an unchanged open source, two consecutive `reindex` passes return
identical results — the second pass does not depend on the metadata the first
one left in the machine. -/
theorem reindex_idempotent (m m1 m2 : ReindexerMachine) (r1 r2 : ReindexResult)
    (h1 : reindex_op m = .ok (m1, r1)) (h2 : reindex_op m1 = .ok (m2, r2)) :
    r2 = r1 := by
  cases hm : m.lifecycle with
  | closed =>
    unfold reindex_op at h1
    rw [hm] at h1
    exact absurd h1 (by simp)
  | opened segments =>
    unfold reindex_op at h1
    rw [hm] at h1
    injection h1 with h1
    have hm1 :
        m1 = { lifecycle := Lifecycle.opened segments,
               metadata := some (reindex_source segments) } :=
      (congrArg Prod.fst h1).symm
    have hr1 : r1 = reindex_source segments := (congrArg Prod.snd h1).symm
    unfold reindex_op at h2
    rw [hm1] at h2
    injection h2 with h2
    have hr2 : r2 = reindex_source segments := (congrArg Prod.snd h2).symm
    rw [hr1, hr2]

/-- Witness for C2: two runs on the same open one-segment source, both
producing the catalog `[("imu", 2)]` over timestamps 10..12. -/
theorem reindex_idempotent_witness :
    ({ topics_with_message_count := [("imu", 2)], starting_time := 10,
       ending_time := 12, relative_file_paths := ["bag_0.db3"],
       empty_recording := false } : ReindexResult) =
    ({ topics_with_message_count := [("imu", 2)], starting_time := 10,
       ending_time := 12, relative_file_paths := ["bag_0.db3"],
       empty_recording := false } : ReindexResult) :=
  reindex_idempotent
    { lifecycle := .opened [seg_demo1], metadata := none }
    { lifecycle := .opened [seg_demo1], metadata := some (reindex_source [seg_demo1]) }
    { lifecycle := .opened [seg_demo1], metadata := some (reindex_source [seg_demo1]) }
    { topics_with_message_count := [("imu", 2)], starting_time := 10,
      ending_time := 12, relative_file_paths := ["bag_0.db3"],
      empty_recording := false }
    { topics_with_message_count := [("imu", 2)], starting_time := 10,
      ending_time := 12, relative_file_paths := ["bag_0.db3"],
      empty_recording := false }
    (by decide) (by decide)

/-! ## Claim C3 -/

/-- C3: the committed `reindex()` body contradicts both the claim and the
`Reindexer::reindex` header documentation ("throws runtime_error if the
Reader is not open"): evaluated on a machine in the `Open` state it still
throws — an unconditional raw `runtime_error`, not a `NotOpenError`-gated
failure — while the spec-modelled `reindex_op` on the same state succeeds. -/
theorem reindex_stub_throws_when_open :
    reindex_as_written { lifecycle := .opened [seg_demo1], metadata := none } =
      .error (.RuntimeError "Successfully called Reindex!") ∧
    reindex_as_written { lifecycle := .closed, metadata := none } =
      .error (.RuntimeError "Successfully called Reindex!") ∧
    reindex_op { lifecycle := .opened [seg_demo1], metadata := none } =
      .ok ({ lifecycle := .opened [seg_demo1],
             metadata := some (reindex_source [seg_demo1]) },
           reindex_source [seg_demo1]) :=
  ⟨rfl, rfl, rfl⟩

/-! ## Claim C8 -/

/-- C8: before any record is seen, `init_metadata` puts `starting_time` at
the "unbounded future" sentinel and the builder starts `ending_time` at the
"unbounded past" sentinel; after a scan that saw zero records both remain at
their sentinels and the result is flagged as an empty recording. -/
theorem sentinel_times_empty_scan (storage : StorageHandle)
    (segments : List Segment) (h : scan segments = []) :
    (init_metadata storage).starting_time = nanoseconds_max ∧
    init_builder.starting_time = nanoseconds_max ∧
    init_builder.ending_time = nanoseconds_min ∧
    (reindex_source segments).starting_time = nanoseconds_max ∧
    (reindex_source segments).ending_time = nanoseconds_min ∧
    (reindex_source segments).empty_recording = true := by
  refine ⟨rfl, rfl, rfl, ?_, ?_, ?_⟩ <;>
    simp [reindex_source, build, h, init_builder]

/-- Witness for C8: a source with one segment holding zero records. -/
theorem sentinel_times_empty_scan_witness :
    (init_metadata handle_empty).starting_time = nanoseconds_max ∧
    init_builder.starting_time = nanoseconds_max ∧
    init_builder.ending_time = nanoseconds_min ∧
    (reindex_source [{ path := "bag_0.db3", records := [] }]).starting_time =
      nanoseconds_max ∧
    (reindex_source [{ path := "bag_0.db3", records := [] }]).ending_time =
      nanoseconds_min ∧
    (reindex_source [{ path := "bag_0.db3", records := [] }]).empty_recording = true :=
  sentinel_times_empty_scan handle_empty [{ path := "bag_0.db3", records := [] }]
    (by decide)

end Rosbag2
